import Mathlib

/-!
Verification development for the AI-Powered Offer Creator dashboard
(`pulse_id_sql_interface.py`).  The Python source is shallowly embedded:
JSON values become an inductive type, dict/list accesses and Python
exceptions become `Except`-valued functions, and the LLM / HTTP calls are
abstracted as outcome parameters (their results are opaque to the local
code).  All definitions follow the source line by line.
-/

namespace OfferApp

/-- JSON values as produced by `json.loads`: Python `None`/`True`/`False`,
numbers (modelled as rationals), strings, lists and dicts. -/
inductive Json where
  | null : Json
  | bool : Bool → Json
  | num : Rat → Json
  | str : String → Json
  | arr : List Json → Json
  | obj : List (String × Json) → Json
  deriving Repr

mutual

/-- Python `==` on JSON values.  Python equates `True` with `1` and `False`
with `0`; dict equality is order-insensitive. -/
def pyEq : Json → Json → Bool
  | .null, .null => true
  | .bool x, .bool y => x == y
  | .bool x, .num q => q == (if x then (1 : Rat) else 0)
  | .num q, .bool x => q == (if x then (1 : Rat) else 0)
  | .num p, .num q => p == q
  | .str s, .str t => s == t
  | .arr xs, .arr ys => xs.length == ys.length && pyEqArr xs ys
  | .obj xs, .obj ys => xs.length == ys.length && pyEqObjAll xs ys
  | _, _ => false

/-- Element-wise Python `==` of two JSON lists of equal length. -/
def pyEqArr : List Json → List Json → Bool
  | [], _ => true
  | _ :: _, [] => false
  | x :: xs, y :: ys => pyEq x y && pyEqArr xs ys

/-- Each key of the first dict is present in the second with a `==` value. -/
def pyEqObjAll : List (String × Json) → List (String × Json) → Bool
  | [], _ => true
  | kv :: xs, ys =>
    (match ys.lookup kv.1 with
     | some w => pyEq kv.2 w
     | none => false) && pyEqObjAll xs ys

end

/-- Substring test on character lists (Python `needle in haystack` for
strings). -/
def listContains (needle : List Char) : List Char → Bool
  | [] => needle.isEmpty
  | c :: t => needle.isPrefixOf (c :: t) || listContains needle t

/-- Python `d.get(k, default)`: returns the value under `k` (or the default)
when the receiver is a dict, and raises `AttributeError` otherwise. -/
def pyDictGet (j : Json) (k : String) (d : Json) : Except String Json :=
  match j with
  | .obj l => .ok ((l.lookup k).getD d)
  | _ => .error "AttributeError: object has no attribute get"

/-- Python membership test `v in container`: lists test element-wise `==`,
strings test substring membership (raising `TypeError` when the needle is
not a string), everything else is not iterable. -/
def pyIn (v : Json) (container : Json) : Except String Bool :=
  match container with
  | .arr l => .ok (l.any (fun e => pyEq v e))
  | .str s =>
    match v with
    | .str t => .ok (listContains t.data s.data)
    | _ => .error "TypeError: a non-string needle in a string"
  | _ => .error "TypeError: argument is not iterable"

/-- A Python list comprehension with a possibly raising predicate: elements
are tested in order and the first exception aborts the whole comprehension. -/
def listFilterE {α ε : Type} (p : α → Except ε Bool) : List α → Except ε (List α)
  | [] => .ok []
  | a :: l =>
    match p a with
    | .error e => .error e
    | .ok b =>
      match listFilterE p l with
      | .error e => .error e
      | .ok r => .ok (if b then a :: r else r)

/-- An offer record fetched from the marketplace, restricted to the fields
the local code reads.  `id` is `offer.get('id')` (`Json.null` models a
missing id / Python `None`); `durationTo` is `offer.get('duration',
{}).get('to')` (`none` for a missing field or Python `None`); `budget` is
the raw `budget` field (`none` when absent). -/
structure Offer where
  id : Json := .null
  durationTo : Option String := none
  budget : Option Json := none
  deriving Repr

/-- The body of `filter_offers_with_llm` inside its `try` block.  `resp`
abstracts everything up to and including `json.loads` on the LLM response
(network failure, a raising offer serialization, and an unparseable body all
become `.error`).  On a parsed value the code runs
`result.get('matching_ids', [])` and the membership comprehension
`[offer for offer in offers if offer.get('id') in ...]`. -/
def filterBody (resp : Except String Json) (offers : List Offer) :
    Except String (List Offer) := do
  let result ← resp
  let ids ← pyDictGet result "matching_ids" (.arr [])
  listFilterE (fun o => pyIn o.id ids) offers

/-- `filter_offers_with_llm`: the `try`/`except` wrapper.  Any exception is
caught, an error message is shown via `st.error`, and the original offers
are returned; otherwise the comprehension's result is returned with no
message. -/
def filter_offers_with_llm (resp : Except String Json) (offers : List Offer) :
    List Offer × Option String :=
  match filterBody resp offers with
  | .ok r => (r, none)
  | .error e => (offers, some ("LLM filtering error: " ++ e))

/-- The literal opening token of the fence pattern
`re.sub(r'<fence>json\n?(.*?)\n?<fence>', r'\1', content, flags=re.DOTALL)`
where `<fence>` is three backticks. -/
def fenceOpen : List Char := ['`', '`', '`', 'j', 's', 'o', 'n']

/-- The closing part `\n?` followed by three backticks, tried at one lazy
expansion point: the greedy `\n?` first consumes a newline if the three
backticks follow it, otherwise matches empty.  Returns the remainder after
the closing backticks. -/
def closesFence : List Char → Option (List Char)
  | a :: b :: c :: d :: r =>
    if a = '\n' ∧ b = '`' ∧ c = '`' ∧ d = '`' then some r
    else if a = '`' ∧ b = '`' ∧ c = '`' then some (d :: r)
    else none
  | a :: b :: c :: r =>
    if a = '`' ∧ b = '`' ∧ c = '`' then some r else none
  | _ => none

/-- The lazy group `(.*?)` under `re.DOTALL`: expand the capture one
character at a time (newlines included), stopping at the first position
where the closing `\n?` plus backticks matches.  Returns the captured group
and the remainder after the whole match. -/
def lazyFind : List Char → Option (List Char × List Char)
  | [] => none
  | c :: t =>
    match closesFence (c :: t) with
    | some rest => some ([], rest)
    | none => (lazyFind t).map (fun p => (c :: p.1, p.2))

/-- Matching of the pattern after the literal opening token: the greedy
`\n?` consumes a newline first when possible, backtracking to the empty
alternative if the rest of the pattern then fails. -/
def matchAfter (t : List Char) : Option (List Char × List Char) :=
  match t with
  | '\n' :: t1 =>
    match lazyFind t1 with
    | some r => some r
    | none => lazyFind t
  | _ => lazyFind t

/-- The `re.sub` scan: at each position, if the opening token matches and
the rest of the pattern succeeds, emit the captured group (the replacement
`\1`) and continue after the match; otherwise emit the character and move
on.  Fuel is the remaining length, which every recursive call respects, so
the fuel-exhaustion branch is unreachable. -/
def stripFenceFuel : Nat → List Char → List Char
  | 0, s => s
  | _ + 1, [] => []
  | n + 1, c :: t =>
    if fenceOpen.isPrefixOf (c :: t) then
      match matchAfter (t.drop 6) with
      | some (g, rest) => g ++ stripFenceFuel n rest
      | none => c :: stripFenceFuel n t
    else c :: stripFenceFuel n t

/-- Code-fence stripping on character lists. -/
def stripFenceList (s : List Char) : List Char := stripFenceFuel s.length s

/-- Code-fence stripping as applied to the LLM response `content` by
`content = re.sub(r'<fence>json\n?(.*?)\n?<fence>', r'\1', content,
flags=re.DOTALL)`. -/
def stripCodeFence (s : String) : String := ⟨stripFenceList s.data⟩

/-- Whether three consecutive backticks occur anywhere: the formal reading
of "carries fence markup". -/
def hasTripleBacktick : List Char → Bool
  | [] => false
  | c :: t => ['`', '`', '`'].isPrefixOf (c :: t) || hasTripleBacktick t

/-- JSON whitespace accepted by `json.loads`. -/
def isJsonWs (c : Char) : Bool := c = ' ' || c = '\t' || c = '\n' || c = '\r'

/-- Skip leading JSON whitespace. -/
def skipWs : List Char → List Char
  | c :: t => if isJsonWs c then skipWs t else c :: t
  | [] => []

/-- Hexadecimal digit value. -/
def hexVal (c : Char) : Option Nat :=
  if '0' ≤ c ∧ c ≤ '9' then some (c.toNat - 48)
  else if 'a' ≤ c ∧ c ≤ 'f' then some (c.toNat - 87)
  else if 'A' ≤ c ∧ c ≤ 'F' then some (c.toNat - 55)
  else none

/-- Body of a JSON string after the opening quote, with the escapes
`json.loads` accepts; raw control characters are rejected (strict mode).
Fuel is the remaining length. -/
def parseStrBody : Nat → List Char → Except String (List Char × List Char)
  | 0, _ => .error "Unterminated string"
  | _ + 1, [] => .error "Unterminated string"
  | n + 1, c :: t =>
    if c = '"' then .ok ([], t)
    else if c = '\\' then
      match t with
      | [] => .error "Unterminated string"
      | e :: t' =>
        let esc : Except String (Char × List Char) :=
          if e = '"' then .ok ('"', t')
          else if e = '\\' then .ok ('\\', t')
          else if e = '/' then .ok ('/', t')
          else if e = 'b' then .ok ('\x08', t')
          else if e = 'f' then .ok ('\x0c', t')
          else if e = 'n' then .ok ('\n', t')
          else if e = 'r' then .ok ('\r', t')
          else if e = 't' then .ok ('\t', t')
          else if e = 'u' then
            match t' with
            | h1 :: h2 :: h3 :: h4 :: t'' =>
              match hexVal h1, hexVal h2, hexVal h3, hexVal h4 with
              | some a, some b, some cc, some d =>
                .ok (Char.ofNat (((a * 16 + b) * 16 + cc) * 16 + d), t'')
              | _, _, _, _ => .error "Invalid hex escape"
            | _ => .error "Invalid hex escape"
          else .error "Invalid escape"
        match esc with
        | .error m => .error m
        | .ok (ch, rest) =>
          match parseStrBody n rest with
          | .error m => .error m
          | .ok (cs, rest') => .ok (ch :: cs, rest')
    else if c.toNat < 32 then .error "Invalid control character"
    else
      match parseStrBody n t with
      | .error m => .error m
      | .ok (cs, rest) => .ok (c :: cs, rest)

/-- Greedy span of decimal digits. -/
def takeDigits : List Char → List Char × List Char
  | c :: t =>
    if c.isDigit then
      let (ds, rest) := takeDigits t
      (c :: ds, rest)
    else ([], c :: t)
  | [] => ([], [])

/-- Digit list to natural number. -/
def digitsToNat (l : List Char) : Nat := l.foldl (fun a c => a * 10 + (c.toNat - 48)) 0

/-- Multiply by a signed power of ten (for the exponent part of a JSON
number). -/
def mulPow10 (q : Rat) (e : Int) : Rat :=
  if 0 ≤ e then q * (10 : Rat) ^ e.toNat else q / (10 : Rat) ^ (-e).toNat

/-- A JSON number per the grammar `json.loads` uses:
`-?(0|[1-9][0-9]*)(.[0-9]+)?([eE][-+]?[0-9]+)?`.  The optional fraction and
exponent groups are consumed only when they match completely, exactly as
the regex does. -/
def parseNumber (l : List Char) : Except String (Json × List Char) :=
  let (neg, l1) := match l with
    | '-' :: t => (true, t)
    | _ => (false, l)
  let intPart : Except String (Nat × List Char) :=
    match l1 with
    | '0' :: t => .ok (0, t)
    | c :: t =>
      if c.isDigit then
        let (ds, rest) := takeDigits t
        .ok (digitsToNat (c :: ds), rest)
      else .error "Expecting value"
    | [] => .error "Expecting value"
  match intPart with
  | .error m => .error m
  | .ok (n, l2) =>
    let (fracDs, l3) :=
      match l2 with
      | '.' :: t =>
        match takeDigits t with
        | ([], _) => ([], l2)
        | (ds, rest) => (ds, rest)
      | _ => ([], l2)
    let (expPart, l4) :=
      match l3 with
      | e :: t =>
        if e = 'e' ∨ e = 'E' then
          let (esign, t1) := match t with
            | '-' :: t' => ((-1 : Int), t')
            | '+' :: t' => ((1 : Int), t')
            | _ => ((1 : Int), t)
          match takeDigits t1 with
          | ([], _) => (none, l3)
          | (ds, rest) => (some (esign * (digitsToNat ds : Int)), rest)
        else (none, l3)
      | [] => (none, l3)
    let base : Rat := (n : Rat)
    let base := if fracDs.isEmpty then base
      else base + (digitsToNat fracDs : Rat) / (10 : Rat) ^ fracDs.length
    let base := match expPart with
      | some e => mulPow10 base e
      | none => base
    .ok (.num (if neg then -base else base), l4)

/-- Insert a key into a dict as Python does: an existing key keeps its
position and gets the new value, a new key is appended. -/
def objInsert (k : String) (v : Json) : List (String × Json) → List (String × Json)
  | [] => [(k, v)]
  | (k', w) :: t => if k' = k then (k, v) :: t else (k', w) :: objInsert k v t

mutual

/-- A JSON value at the current position (whitespace already skipped by the
caller), following `json.loads`.  Fuel bounds the recursion; it is
initialised above the input length, which every call preserves, so the
`0` case is unreachable. -/
def parseValue : Nat → List Char → Except String (Json × List Char)
  | 0, _ => .error "Expecting value"
  | _ + 1, [] => .error "Expecting value"
  | n + 1, c :: t =>
    if c = 'n' then
      if ['u', 'l', 'l'].isPrefixOf t then .ok (.null, t.drop 3)
      else .error "Expecting value"
    else if c = 't' then
      if ['r', 'u', 'e'].isPrefixOf t then .ok (.bool true, t.drop 3)
      else .error "Expecting value"
    else if c = 'f' then
      if ['a', 'l', 's', 'e'].isPrefixOf t then .ok (.bool false, t.drop 4)
      else .error "Expecting value"
    else if c = '"' then
      match parseStrBody (t.length + 1) t with
      | .error m => .error m
      | .ok (cs, rest) => .ok (.str ⟨cs⟩, rest)
    else if c = '[' then
      let t1 := skipWs t
      match t1 with
      | ']' :: rest => .ok (.arr [], rest)
      | _ => parseArrLoop n t1 []
    else if c = '{' then
      let t1 := skipWs t
      match t1 with
      | '}' :: rest => .ok (.obj [], rest)
      | _ => parseObjLoop n t1 []
    else if c.isDigit ∨ c = '-' then parseNumber (c :: t)
    else .error "Expecting value"

/-- Array elements: value, then `,` and the next element or `]`. -/
def parseArrLoop : Nat → List Char → List Json → Except String (Json × List Char)
  | 0, _, _ => .error "Expecting value"
  | n + 1, l, acc =>
    match parseValue n l with
    | .error m => .error m
    | .ok (v, rest) =>
      match skipWs rest with
      | ']' :: rest' => .ok (.arr (acc ++ [v]), rest')
      | ',' :: rest' => parseArrLoop n (skipWs rest') (acc ++ [v])
      | _ => .error "Expecting comma delimiter"

/-- Object members: `"key"`, `:`, value, then `,` and the next member or
`}`.  Duplicate keys overwrite as in a Python dict. -/
def parseObjLoop : Nat → List Char → List (String × Json) → Except String (Json × List Char)
  | 0, _, _ => .error "Expecting value"
  | n + 1, l, acc =>
    match l with
    | '"' :: t =>
      match parseStrBody (t.length + 1) t with
      | .error m => .error m
      | .ok (ks, rest) =>
        match skipWs rest with
        | ':' :: rest' =>
          match parseValue n (skipWs rest') with
          | .error m => .error m
          | .ok (v, rest'') =>
            let acc' := objInsert ⟨ks⟩ v acc
            match skipWs rest'' with
            | '}' :: rest3 => .ok (.obj acc', rest3)
            | ',' :: rest3 => parseObjLoop n (skipWs rest3) acc'
            | _ => .error "Expecting comma delimiter"
        | _ => .error "Expecting colon delimiter"
    | _ => .error "Expecting property name enclosed in double quotes"

end

/-- `json.loads`: leading and trailing whitespace allowed, anything beyond
one value is an error. -/
def jsonParse (s : String) : Except String Json :=
  match parseValue (s.data.length + 1) (skipWs s.data) with
  | .error m => .error m
  | .ok (v, rest) => if (skipWs rest).isEmpty then .ok v else .error "Extra data"

/-- Python `.copy()`: dicts and lists have it, scalars raise
`AttributeError`. -/
def pyCopy : Json → Except String Json
  | .obj l => .ok (.obj l)
  | .arr l => .ok (.arr l)
  | _ => .error "AttributeError: object has no attribute copy"

/-- The draft-side session state touched by the Generate Offer handler. -/
structure DraftState where
  offer_params : Option Json := none
  adjusted_params : Option Json := none
  offer_created : Bool := false
  deriving Repr

/-- The Generate Offer handler body: strip code fences from the LLM
response `content`, `json.loads` it into `offer_params`, copy it into
`adjusted_params` and set `offer_created`.  Any exception is caught and
shown via `st.error`, leaving the state already mutated up to that point
(the parse failure happens before any assignment; a failing `.copy()`
happens after `offer_params` was assigned).  `respContent` abstracts the
LLM call's response text; a raising LLM call is the `.error` case of
`resp`. -/
def generateHandler (resp : Except String String) (s : DraftState) :
    DraftState × Option String :=
  match resp with
  | .error e => (s, some ("Error generating offer: " ++ e))
  | .ok respContent =>
    match jsonParse (stripCodeFence respContent) with
    | .error e => (s, some ("Error generating offer: " ++ e))
    | .ok v =>
      let s1 := { s with offer_params := some v }
      match pyCopy v with
      | .error e => (s1, some ("Error generating offer: " ++ e))
      | .ok cp =>
        ({ offer_params := some v, adjusted_params := some cp,
           offer_created := true }, none)

/-- The `permissionToken` and `authToken` pair extracted by
`authenticate_user`. -/
structure AuthTokens where
  permissionToken : String
  authToken : String

/-- `fetch_pending_offers`: authenticate, list pending offers, and replace
`st.session_state.pending_offers` with `offers.get('offers', [])`.  The
whole chain sits in one `try`; any exception is caught, reported via
`st.error`, and leaves the previous `pending_offers` untouched.  `authR`
abstracts `authenticate_user` (network failure, non-ok status or missing
token fields all become `.error`); `offersR` abstracts `get_pending_offers`
for given tokens (non-200 status or network failure become `.error`, the
parsed response body otherwise). -/
def fetch_pending_offers (authR : Except String AuthTokens)
    (offersR : AuthTokens → Except String Json)
    (pending : Option Json) : Option Json × Option String :=
  match (do
      let a ← authR
      let body ← offersR a
      pyDictGet body "offers" (.arr []) : Except String Json) with
  | .ok v => (some v, none)
  | .error e => (pending, some ("Failed to fetch offers: " ++ e))

/-- Python truthiness of an optional list (`None` and `[]` are falsy). -/
def pyTruthyList {α : Type} : Option (List α) → Bool
  | none => false
  | some [] => false
  | some (_ :: _) => true

/-- `offers_to_display = st.session_state.filtered_offers or
st.session_state.pending_offers`: Python `or` keeps the left operand when
it is truthy and the right one otherwise. -/
def offersToDisplay (filtered pending : Option (List Offer)) : Option (List Offer) :=
  if pyTruthyList filtered then filtered else pending

/-- Proleptic Gregorian leap year, as Python's `datetime` uses. -/
def isLeap (y : Nat) : Bool := y % 4 = 0 && (y % 100 ≠ 0 || y % 400 = 0)

/-- Days in a month of a given year. -/
def daysInMonth (y m : Nat) : Nat :=
  if m = 2 then (if isLeap y then 29 else 28)
  else if m = 4 ∨ m = 6 ∨ m = 9 ∨ m = 11 then 30
  else 31

/-- Days in the year strictly before month `m`. -/
def daysBeforeMonth (y m : Nat) : Nat :=
  [0, 31, 59, 90, 120, 151, 181, 212, 243, 273, 304, 334].getD (m - 1) 0 +
    (if isLeap y && 2 < m then 1 else 0)

/-- Days strictly before January 1 of year `y` counting from year 1. -/
def daysBeforeYear (y : Nat) : Nat :=
  let n := y - 1
  365 * n + n / 4 + n / 400 - n / 100

/-- Minutes since 0001-01-01 00:00 of a calendar datetime. -/
def toMinutes (y mo d h mi : Nat) : Nat :=
  ((daysBeforeYear y + daysBeforeMonth y mo + (d - 1)) * 24 + h) * 60 + mi

/-- Decimal digit value of a character, when it is a digit. -/
def digitVal (c : Char) : Option Nat :=
  if c.isDigit then some (c.toNat - 48) else none

/-- A field matched by a two-digit-or-one-digit alternation of the
`strptime` regexes (two digits are tried first, exactly as in the
alternation order of `_strptime`). -/
def parse2or1 (ok2 : Nat → Nat → Bool) (ok1 : Nat → Bool) :
    List Char → Option (Nat × List Char)
  | c1 :: c2 :: rest =>
    match digitVal c1, digitVal c2 with
    | some d1, some d2 =>
      if ok2 d1 d2 then some (10 * d1 + d2, rest)
      else if ok1 d1 then some (d1, c2 :: rest)
      else none
    | some d1, none => if ok1 d1 then some (d1, c2 :: rest) else none
    | none, _ => none
  | [c1] =>
    match digitVal c1 with
    | some d1 => if ok1 d1 then some (d1, []) else none
    | none => none
  | [] => none

/-- The exactly-four-digit `%Y` field. -/
def parseYear : List Char → Option (Nat × List Char)
  | c1 :: c2 :: c3 :: c4 :: rest =>
    match digitVal c1, digitVal c2, digitVal c3, digitVal c4 with
    | some a, some b, some c, some d => some (((a * 10 + b) * 10 + c) * 10 + d, rest)
    | _, _, _, _ => none
  | _ => none

/-- Require a literal character. -/
def expectChar (c : Char) : List Char → Option (List Char)
  | c' :: t => if c' = c then some t else none
  | [] => none

/-- `datetime.strptime(s, "%Y-%m-%d %H:%M")` as minutes since year 1:
the format regex must match the whole string (`%m` is `1[0-2]|0[1-9]|[1-9]`,
`%d` is `3[01]|[12]d|0[1-9]|[1-9]`, `%H` is `2[0-3]|[0-1]d|d`, `%M` is
`[0-5]d|d`), and the `datetime` constructor then validates the day against
the month length and the year against `MINYEAR = 1`.  `none` models the
raised `ValueError`. -/
def strptimeYmdHM (s : String) : Option Nat := do
  let (y, r1) ← parseYear s.data
  let r2 ← expectChar '-' r1
  let (mo, r3) ← parse2or1 (fun d1 d2 => (d1 = 1 && d2 ≤ 2) || (d1 = 0 && 1 ≤ d2))
    (fun d1 => 1 ≤ d1) r2
  let r4 ← expectChar '-' r3
  let (d, r5) ← parse2or1
    (fun d1 d2 => (d1 = 3 && d2 ≤ 1) || d1 = 1 || d1 = 2 || (d1 = 0 && 1 ≤ d2))
    (fun d1 => 1 ≤ d1) r4
  let r6 ← expectChar ' ' r5
  let (h, r7) ← parse2or1 (fun d1 d2 => (d1 = 2 && d2 ≤ 3) || d1 ≤ 1)
    (fun _ => true) r6
  let r8 ← expectChar ':' r7
  let (mi, r9) ← parse2or1 (fun d1 _ => d1 ≤ 5) (fun _ => true) r8
  if r9 = [] ∧ 1 ≤ y ∧ d ≤ daysInMonth y mo then some (toMinutes y mo d h mi)
  else none

/-- Python truthiness of an optional string (`None` and `''` are falsy). -/
def optStrTruthy : Option String → Bool
  | none => false
  | some s => !(s = "")

/-- The Expiring Soon predicate
`o.get('duration', {}).get('to') and (strptime(o['duration']['to'],
"%Y-%m-%d %H:%M") - datetime.now()).days <= 7` at current time `now` (in
minutes): falsy expiry short-circuits to exclusion, an unparseable expiry
raises `ValueError`, and `timedelta.days` floor-divides the difference by
one day (1440 minutes). -/
def expiringSoonPred (now : Int) (o : Offer) : Except String Bool :=
  match o.durationTo with
  | none => .ok false
  | some s =>
    if s = "" then .ok false
    else
      match strptimeYmdHM s with
      | none => .error ("ValueError: time data does not match format " ++ s)
      | some t => .ok (decide (Int.fdiv ((t : Int) - now) 1440 ≤ 7))

/-- The Expiring Soon list comprehension over the pending offers. -/
def expiringSoonFilter (now : Int) (offers : List Offer) :
    Except String (List Offer) :=
  listFilterE (expiringSoonPred now) offers

/-- Python `float(x)` on a JSON value. -/
def pyFloat : Json → Except String Rat
  | .num q => .ok q
  | .bool b => .ok (if b then 1 else 0)
  | .str s =>
    (do
      let t := s.data.dropWhile (fun c => c = ' ' || c = '\t' || c = '\n' || c = '\r')
      let (neg, t1) : Bool × List Char :=
        match t with
        | '-' :: r => (true, r)
        | '+' :: r => (false, r)
        | _ => (false, t)
      let (ip, t2) := takeDigits t1
      let (fp, t3) : List Char × List Char :=
        match t2 with
        | '.' :: r => takeDigits r
        | _ => ([], t2)
      let t4 := t3.dropWhile (fun c => c = ' ' || c = '\t' || c = '\n' || c = '\r')
      if (ip.isEmpty && fp.isEmpty) || !t4.isEmpty then none
      else
        let q : Rat := (digitsToNat ip : Rat) +
          (digitsToNat fp : Rat) / (10 : Rat) ^ fp.length
        some (if neg then -q else q) : Option Rat).elim
      (.error "ValueError: could not convert string to float") .ok
  | .null => .error "TypeError: float() argument must be a string or a number"
  | _ => .error "TypeError: float() argument must be a string or a number"

/-- The High Value predicate `float(o.get('budget', 0)) > 50`. -/
def highValuePred (o : Offer) : Except String Bool :=
  match pyFloat (o.budget.getD (.num 0)) with
  | .error e => .error e
  | .ok q => .ok (decide (50 < q))

/-- The offer-browsing session state of the View Offers tab. -/
structure BrowseState where
  pending_offers : Option (List Offer) := none
  filtered_offers : Option (List Offer) := none
  deriving Repr

/-- The Search Offers handler: with a truthy base collection and a truthy
query it stores the LLM-filtered offers; with a falsy base collection it
shows the warning `No offers loaded. Refresh first.` and changes nothing;
otherwise (base loaded, empty query) it does nothing silently. -/
def searchHandler (query : String) (resp : Except String Json)
    (s : BrowseState) : BrowseState × Option String :=
  if pyTruthyList s.pending_offers && !(query = "") then
    let filtered := (filter_offers_with_llm resp (s.pending_offers.getD [])).1
    ({ s with filtered_offers := some filtered }, none)
  else if !(pyTruthyList s.pending_offers) then
    (s, some "No offers loaded. Refresh first.")
  else (s, none)

/-- The Expiring Soon quick-filter handler: it iterates
`st.session_state.pending_offers` directly, so an unloaded (`None`)
collection raises `TypeError` instead of warning. -/
def expiringSoonHandler (now : Int) (s : BrowseState) : Except String BrowseState :=
  match s.pending_offers with
  | none => .error "TypeError: NoneType object is not iterable"
  | some offers =>
    match expiringSoonFilter now offers with
    | .error e => .error e
    | .ok f => .ok { s with filtered_offers := some f }

/-- The High Value quick-filter handler, iterating the pending offers the
same way. -/
def highValueHandler (s : BrowseState) : Except String BrowseState :=
  match s.pending_offers with
  | none => .error "TypeError: NoneType object is not iterable"
  | some offers =>
    match listFilterE highValuePred offers with
    | .error e => .error e
    | .ok f => .ok { s with filtered_offers := some f }

/-- The sort key lambda of `offers_to_display.sort`: for a truthy expiry it
builds the tuple `(strptime(to), "%Y-%m-%d %H:%M")`, calling
`datetime.strptime` with a single argument, which raises `TypeError`
before any tuple exists; for a falsy expiry the key is the string
`'9999-12-31'`. -/
def sortKeyOf (o : Offer) : Except String String :=
  if optStrTruthy o.durationTo then
    .error "TypeError: strptime needs a format argument"
  else .ok "9999-12-31"

/-- Lexicographic (code-point) order on character lists, the order Python
uses to compare strings. -/
def charListLt : List Char → List Char → Bool
  | [], [] => false
  | [], _ :: _ => true
  | _ :: _, [] => false
  | a :: as, b :: bs =>
    if a.toNat < b.toNat then true
    else if b.toNat < a.toNat then false
    else charListLt as bs

/-- Python `<` on strings. -/
def strLt (a b : String) : Bool := charListLt a.data b.data

/-- Stable insertion of a keyed offer: strictly smaller keys stay in front,
equal keys keep the earlier element first. -/
def insertByKey (p : String × Offer) : List (String × Offer) → List (String × Offer)
  | [] => [p]
  | q :: t => if strLt q.1 p.1 then q :: insertByKey p t else p :: q :: t

/-- Stable ascending sort of keyed offers (any stable sort agrees with the
stable `list.sort`). -/
def sortKeyed : List (String × Offer) → List (String × Offer)
  | [] => []
  | p :: t => insertByKey p (sortKeyed t)

/-- `offers_to_display.sort(key=...)`: `list.sort` computes the key of each
element in list order first (raising aborts with the list unchanged), then
sorts stably by key. -/
def sortByExpiry (offers : List Offer) : Except String (List Offer) :=
  match offers.mapM (fun o => (sortKeyOf o).map (fun k => (k, o))) with
  | .error e => .error e
  | .ok keyed => .ok ((sortKeyed keyed).map (fun p => p.2))

/-! ## Helper lemmas -/

theorem listFilterE_sublist {α ε : Type} (p : α → Except ε Bool) :
    ∀ (l r : List α), listFilterE p l = .ok r → List.Sublist r l := by
  intro l
  induction l with
  | nil =>
    intro r h
    simp only [listFilterE] at h
    cases h
    exact List.Sublist.refl _
  | cons a t ih =>
    intro r h
    simp only [listFilterE] at h
    cases hp : p a with
    | error e => rw [hp] at h; cases h
    | ok b =>
      rw [hp] at h
      cases hr : listFilterE p t with
      | error e => rw [hr] at h; cases h
      | ok r' =>
        rw [hr] at h
        have hs := ih r' hr
        cases b with
        | true =>
          simp only [if_pos] at h
          cases h
          exact List.Sublist.cons₂ a hs
        | false =>
          simp only [if_neg] at h
          cases h
          exact List.Sublist.cons a hs

theorem listFilterE_allFalse {α ε : Type} (p : α → Except ε Bool)
    (hp : ∀ a, p a = .ok false) : ∀ l, listFilterE p l = .ok [] := by
  intro l
  induction l with
  | nil => rfl
  | cons a t ih => simp [listFilterE, hp a, ih]

theorem stripFenceFuel_nil : ∀ n, stripFenceFuel n [] = [] := by
  intro n; cases n <;> rfl

theorem isPrefixOf_of_append {α : Type} [BEq α] :
    ∀ (l₁ l₂ l₃ : List α), (l₁ ++ l₂).isPrefixOf l₃ = true → l₁.isPrefixOf l₃ = true := by
  intro l₁
  induction l₁ with
  | nil => intro l₂ l₃ _; cases l₃ <;> rfl
  | cons a as ih =>
    intro l₂ l₃ h
    cases l₃ with
    | nil => simp [List.isPrefixOf] at h
    | cons b bs =>
      simp only [List.cons_append, List.isPrefixOf, Bool.and_eq_true] at h ⊢
      exact ⟨h.1, ih l₂ bs h.2⟩

theorem isPrefixOf_append_self {α : Type} [BEq α] [LawfulBEq α] :
    ∀ (l t : List α), l.isPrefixOf (l ++ t) = true := by
  intro l t
  induction l with
  | nil => cases t <;> rfl
  | cons a as ih => simp [List.isPrefixOf, ih]

theorem stripFenceFuel_noFence :
    ∀ (s : List Char) (n : Nat), hasTripleBacktick s = false → stripFenceFuel n s = s := by
  intro s
  induction s with
  | nil => intro n _; cases n <;> rfl
  | cons c t ih =>
    intro n h
    cases n with
    | zero => rfl
    | succ m =>
      simp only [hasTripleBacktick, Bool.or_eq_false_iff] at h
      have hfo : fenceOpen.isPrefixOf (c :: t) = false := by
        cases hc : fenceOpen.isPrefixOf (c :: t) with
        | false => rfl
        | true =>
          have := isPrefixOf_of_append ['`', '`', '`'] ['j', 's', 'o', 'n'] (c :: t) hc
          rw [h.1] at this
          cases this
      simp only [stripFenceFuel, hfo, Bool.false_eq_true, if_false]
      rw [ih m h.2]

theorem closesFence_append_none (c : Char) (t : List Char)
    (hc : c ≠ '`') (ht : ∀ a ∈ t, a ≠ '`') :
    closesFence (c :: (t ++ ['\n', '`', '`', '`'])) = none := by
  match t, ht with
  | [], _ =>
    show closesFence [c, '\n', '`', '`', '`'] = none
    rw [closesFence.eq_def]
    simp only []
    rw [if_neg, if_neg]
    · rintro ⟨h, -⟩; exact hc h
    · rintro ⟨-, h, -⟩; exact absurd h (by decide)
  | [a], ht =>
    show closesFence [c, a, '\n', '`', '`', '`'] = none
    rw [closesFence.eq_def]
    simp only []
    rw [if_neg, if_neg]
    · rintro ⟨h, -⟩; exact hc h
    · rintro ⟨-, -, h, -⟩; exact absurd h (by decide)
  | [a, b], ht =>
    show closesFence [c, a, b, '\n', '`', '`', '`'] = none
    rw [closesFence.eq_def]
    simp only []
    rw [if_neg, if_neg]
    · rintro ⟨h, -⟩; exact hc h
    · rintro ⟨-, -, -, h⟩; exact absurd h (by decide)
  | a :: b :: d :: t3, ht =>
    show closesFence (c :: a :: b :: d :: (t3 ++ ['\n', '`', '`', '`'])) = none
    rw [closesFence.eq_def]
    simp only []
    rw [if_neg, if_neg]
    · rintro ⟨h, -⟩; exact hc h
    · rintro ⟨-, h, -⟩
      exact ht a (List.mem_cons_self a _) h

theorem lazyFind_append (s : List Char) (h : ∀ a ∈ s, a ≠ '`') :
    lazyFind (s ++ '\n' :: ['`', '`', '`']) = some (s, []) := by
  induction s with
  | nil => rfl
  | cons c t ih =>
    have hc : c ≠ '`' := h c (List.mem_cons_self c t)
    have ht : ∀ a ∈ t, a ≠ '`' := fun a ha => h a (List.mem_cons_of_mem c ha)
    show lazyFind (c :: (t ++ '\n' :: ['`', '`', '`'])) = some (c :: t, [])
    simp only [lazyFind]
    rw [closesFence_append_none c t hc ht]
    simp only []
    rw [ih ht]
    rfl

theorem matchAfter_append (s : List Char) (h : ∀ a ∈ s, a ≠ '`') :
    matchAfter ('\n' :: (s ++ '\n' :: ['`', '`', '`'])) = some (s, []) := by
  simp only [matchAfter]
  rw [lazyFind_append s h]

theorem stripFenceFuel_labeled (s : List Char) (h : ∀ a ∈ s, a ≠ '`') (n : Nat) :
    stripFenceFuel (n + 1) (fenceOpen ++ '\n' :: (s ++ '\n' :: ['`', '`', '`'])) = s := by
  have hpre : fenceOpen.isPrefixOf
      ('`' :: '`' :: '`' :: 'j' :: 's' :: 'o' :: 'n' ::
        ('\n' :: (s ++ '\n' :: ['`', '`', '`']))) = true :=
    isPrefixOf_append_self fenceOpen ('\n' :: (s ++ '\n' :: ['`', '`', '`']))
  show stripFenceFuel (n + 1)
      ('`' :: '`' :: '`' :: 'j' :: 's' :: 'o' :: 'n' ::
        ('\n' :: (s ++ '\n' :: ['`', '`', '`']))) = s
  simp only [stripFenceFuel, hpre, if_true, List.drop_succ_cons, List.drop_zero]
  rw [matchAfter_append s h]
  simp only []
  rw [stripFenceFuel_nil]
  simp

theorem stripFenceList_labeled (s : List Char) (h : ∀ a ∈ s, a ≠ '`') :
    stripFenceList (fenceOpen ++ '\n' :: (s ++ '\n' :: ['`', '`', '`'])) = s := by
  show stripFenceFuel
      (fenceOpen ++ '\n' :: (s ++ '\n' :: ['`', '`', '`'])).length
      (fenceOpen ++ '\n' :: (s ++ '\n' :: ['`', '`', '`'])) = s
  have hl : (fenceOpen ++ '\n' :: (s ++ '\n' :: ['`', '`', '`'])).length
      = (s.length + 11) + 1 := by
    simp [fenceOpen]
  rw [hl]
  exact stripFenceFuel_labeled s h (s.length + 11)

/-! ## Claim theorems -/

theorem filterBody_sublist (resp : Except String Json) (offers r : List Offer)
    (h : filterBody resp offers = .ok r) : List.Sublist r offers := by
  cases resp with
  | error e => simp [filterBody, bind, Except.bind] at h
  | ok j =>
    simp only [filterBody, bind, Except.bind] at h
    cases hg : pyDictGet j "matching_ids" (.arr []) with
    | error e => rw [hg] at h; cases h
    | ok ids => rw [hg] at h; exact listFilterE_sublist _ _ _ h

/-- C1 counterexample: with a successfully parsed LLM response that merely
lacks the `matching_ids` field, the Offer Filter Engine does not return the
original offer sequence — it returns the empty sequence (the `.get`
default `[]` filters every offer out, and no error is raised), so the
claim as stated is false. -/
theorem claim_C1_counterexample :
    filter_offers_with_llm (.ok (.obj [("other", .null)])) [{ id := .num 1 }]
      = ([], none) ∧
    ([{ id := Json.num 1 }] : List Offer) ≠ [] := by
  refine ⟨rfl, ?_⟩
  simp

/-- C1 (amended): if the LLM filter call raises or errors (network failure
or unparseable response), the Offer Filter Engine returns exactly the
original unfiltered offer sequence and reports a non-fatal error; but if
the response parses to an object missing the `matching_ids` field, the
engine returns the empty sequence with no error report (every offer is
removed). -/
theorem claim_C1_filter_fail_open (offers : List Offer) (e : String)
    (l : List (String × Json)) :
    filter_offers_with_llm (.error e) offers
      = (offers, some ("LLM filtering error: " ++ e)) ∧
    (l.lookup "matching_ids" = none →
      filter_offers_with_llm (.ok (.obj l)) offers = ([], none)) := by
  constructor
  · rfl
  · intro hl
    have h1 : pyDictGet (.obj l) "matching_ids" (.arr []) = .ok (.arr []) := by
      simp [pyDictGet, hl]
    have h2 : filterBody (.ok (.obj l)) offers = .ok [] := by
      unfold filterBody
      simp only [bind, Except.bind, h1]
      exact listFilterE_allFalse _ (fun o => rfl) offers
    simp [filter_offers_with_llm, h2]

/-- Witness for C1 (amended) at concrete inputs: a raised error returns the
two offers unchanged with an error report; a parsed response without
`matching_ids` empties a one-offer list silently. -/
theorem claim_C1_filter_fail_open_witness :
    filter_offers_with_llm (.error "boom") [{ id := Json.num 1 }]
      = ([{ id := Json.num 1 }], some "LLM filtering error: boom") ∧
    filter_offers_with_llm (.ok (.obj [])) [{ id := Json.num 1 }] = ([], none) :=
  ⟨(claim_C1_filter_fail_open [{ id := Json.num 1 }] "boom" []).1,
    (claim_C1_filter_fail_open [{ id := Json.num 1 }] "boom" []).2 rfl⟩

/-- C2: for every LLM response outcome and every offer sequence, the Offer
Filter Engine's output is a subsequence of the input preserving relative
order, and every returned offer's id appears among the input ids. -/
theorem claim_C2_filter_sublist (resp : Except String Json) (offers : List Offer) :
    List.Sublist (filter_offers_with_llm resp offers).1 offers ∧
    ∀ o ∈ (filter_offers_with_llm resp offers).1, o.id ∈ offers.map Offer.id := by
  have hsub : List.Sublist (filter_offers_with_llm resp offers).1 offers := by
    cases hfb : filterBody resp offers with
    | ok r =>
      have h1 : (filter_offers_with_llm resp offers).1 = r := by
        simp [filter_offers_with_llm, hfb]
      rw [h1]
      exact filterBody_sublist resp offers r hfb
    | error e =>
      have h1 : (filter_offers_with_llm resp offers).1 = offers := by
        simp [filter_offers_with_llm, hfb]
      rw [h1]
  exact ⟨hsub, fun o ho => List.mem_map_of_mem Offer.id (hsub.subset ho)⟩

/-- Witness for C2 at a concrete input: of two offers, the response keeping
id 1 yields a subsequence, and the kept offer's id is an input id. -/
theorem claim_C2_filter_sublist_witness :
    List.Sublist
      (filter_offers_with_llm (.ok (.obj [("matching_ids", .arr [.num 1])]))
        [{ id := Json.num 1 }, { id := Json.num 2 }]).1
      [{ id := Json.num 1 }, { id := Json.num 2 }] ∧
    ({ id := Json.num 1 } : Offer).id ∈
      ([{ id := Json.num 1 }, { id := Json.num 2 }] : List Offer).map Offer.id := by
  constructor
  · exact (claim_C2_filter_sublist (.ok (.obj [("matching_ids", .arr [.num 1])]))
      [{ id := Json.num 1 }, { id := Json.num 2 }]).1
  · apply (claim_C2_filter_sublist (.ok (.obj [("matching_ids", .arr [.num 1])]))
      [{ id := Json.num 1 }, { id := Json.num 2 }]).2
    show ({ id := Json.num 1 } : Offer) ∈
      (filter_offers_with_llm (.ok (.obj [("matching_ids", .arr [.num 1])]))
        [{ id := Json.num 1 }, { id := Json.num 2 }]).1
    have h : (filter_offers_with_llm (.ok (.obj [("matching_ids", .arr [.num 1])]))
        [{ id := Json.num 1 }, { id := Json.num 2 }]).1 = [{ id := Json.num 1 }] := rfl
    rw [h]
    exact List.mem_singleton.mpr rfl

/-- C3 counterexample: an unlabeled fenced block is NOT stripped — the
`re.sub` pattern requires the literal label `json` after the opening
backticks, so the fence markers remain and the inner content is not
recovered. -/
theorem claim_C3_counterexample :
    stripCodeFence "```\nabc\n```" = "```\nabc\n```" ∧
    ("```\nabc\n```" : String) ≠ "abc" := by
  refine ⟨rfl, ?_⟩
  decide

/-- C3 (amended): the code-fence stripping step removes fenced-and-labeled
markers, preserving the inner content verbatim for any backtick-free
content; fenced-unlabeled markers are not recognized and such input is
returned unchanged (see the counterexample). -/
theorem claim_C3_strip_labeled (s : List Char) (h : ∀ a ∈ s, a ≠ '`') :
    stripCodeFence ⟨fenceOpen ++ '\n' :: (s ++ '\n' :: ['`', '`', '`'])⟩ = ⟨s⟩ :=
  congrArg String.mk (stripFenceList_labeled s h)

/-- Witness for C3 (amended): a concrete labeled block is stripped to its
inner content. -/
theorem claim_C3_strip_labeled_witness :
    stripCodeFence "```json\nabc\n```" = "abc" :=
  claim_C3_strip_labeled ['a', 'b', 'c'] (by decide)

/-- C9: code-fence stripping leaves any string without fence markup (no
three consecutive backticks) unchanged; in particular it is idempotent on
already-unfenced strings. -/
theorem claim_C9_strip_unfenced (s : String)
    (h : hasTripleBacktick s.data = false) : stripCodeFence s = s := by
  have h2 : stripFenceList s.data = s.data :=
    stripFenceFuel_noFence s.data s.data.length h
  show String.mk (stripFenceList s.data) = s
  rw [h2]

/-- Witness for C9: a concrete unfenced JSON string is returned unchanged. -/
theorem claim_C9_strip_unfenced_witness :
    hasTripleBacktick ("\x7b\"offer_type\": \"cashback\", \"value\": 20\x7d" : String).data
      = false ∧
    stripCodeFence "\x7b\"offer_type\": \"cashback\", \"value\": 20\x7d"
      = "\x7b\"offer_type\": \"cashback\", \"value\": 20\x7d" :=
  ⟨rfl, claim_C9_strip_unfenced "\x7b\"offer_type\": \"cashback\", \"value\": 20\x7d" rfl⟩

/-- C4: with days = 7 at current time 2025-01-01 00:00 (minute 1064521440
from year 1), the Expiring Soon quick filter includes an offer expiring
exactly 7 days later, excludes one expiring 8 days later, and excludes one
with a missing expiry; but an offer whose expiry is the sentinel
`No end date` is not excluded — `strptime` raises `ValueError` and the
whole comprehension aborts, contradicting the claimed exclusion. -/
theorem claim_C4_expiring_soon :
    strptimeYmdHM "2025-01-01 00:00" = some 1064521440 ∧
    expiringSoonFilter 1064521440
      [{ durationTo := some "2025-01-08 00:00" },
       { durationTo := some "2025-01-09 00:00" },
       { durationTo := none }]
      = .ok [{ durationTo := some "2025-01-08 00:00" }] ∧
    expiringSoonFilter 1064521440 [{ durationTo := some "No end date" }]
      = .error "ValueError: time data does not match format No end date" :=
  ⟨rfl, rfl, rfl⟩

/-- C5: the display sort crashes whenever any offer has a truthy expiry —
the key lambda builds the tuple `(strptime(to), format)`, calling
`datetime.strptime` with a single argument, which raises `TypeError`; only
offers that all lack an expiry sort at all (every key is the sentinel
string, so the stable sort returns the list unchanged).  The claimed
ascending-by-expiry, crash-free sort does not hold on the code. -/
theorem claim_C5_sort_crash :
    sortByExpiry [{ durationTo := some "2025-06-01 10:00" }]
      = .error "TypeError: strptime needs a format argument" ∧
    sortByExpiry [{ id := Json.num 1 }, { id := Json.num 2 }]
      = .ok [{ id := Json.num 1 }, { id := Json.num 2 }] :=
  ⟨rfl, rfl⟩

/-- C6: for every authentication outcome and listing outcome, a failure of
either step leaves the held offer collection unchanged and reports a
non-fatal message, while success of both steps (with the documented
object-shaped body) replaces the collection wholesale with the response's
`offers` field (defaulting to the empty list). -/
theorem claim_C6_fetch (offersR : AuthTokens → Except String Json)
    (pending : Option Json) :
    (∀ e, fetch_pending_offers (.error e) offersR pending
      = (pending, some ("Failed to fetch offers: " ++ e))) ∧
    (∀ a e, offersR a = .error e →
      fetch_pending_offers (.ok a) offersR pending
        = (pending, some ("Failed to fetch offers: " ++ e))) ∧
    (∀ a l, offersR a = .ok (.obj l) →
      fetch_pending_offers (.ok a) offersR pending
        = (some ((l.lookup "offers").getD (.arr [])), none)) := by
  refine ⟨fun e => rfl, fun a e h => ?_, fun a l h => ?_⟩
  · unfold fetch_pending_offers
    simp only [bind, Except.bind, h]
  · unfold fetch_pending_offers
    simp only [bind, Except.bind, h, pyDictGet]

/-- Witness for C6 at concrete inputs: a failed authentication preserves
the old collection, and a successful fetch replaces it with the `offers`
field. -/
theorem claim_C6_fetch_witness :
    fetch_pending_offers (.error "Authentication failed")
      (fun _ => .ok (.obj [("offers", .arr [.num 5])])) (some (.arr []))
      = (some (.arr []), some "Failed to fetch offers: Authentication failed") ∧
    fetch_pending_offers (.ok ⟨"p", "a"⟩)
      (fun _ => .ok (.obj [("offers", .arr [.num 5])])) (some (.arr []))
      = (some (.arr [.num 5]), none) :=
  ⟨(claim_C6_fetch (fun _ => .ok (.obj [("offers", .arr [.num 5])]))
      (some (.arr []))).1 "Authentication failed",
   (claim_C6_fetch (fun _ => .ok (.obj [("offers", .arr [.num 5])]))
      (some (.arr []))).2.2 ⟨"p", "a"⟩ [("offers", .arr [.num 5])] rfl⟩

/-- C7: in the Unloaded browsing state the Search handler is indeed a
no-op with a warning, but both quick-filter handlers iterate the `None`
collection directly and raise `TypeError` instead of warning — the claimed
no-op-with-warning behavior fails for the quick filters. -/
theorem claim_C7_unloaded :
    searchHandler "show food offers" (.error "net") {}
      = ({}, some "No offers loaded. Refresh first.") ∧
    expiringSoonHandler 1064521440 {}
      = .error "TypeError: NoneType object is not iterable" ∧
    highValueHandler {} = .error "TypeError: NoneType object is not iterable" :=
  ⟨rfl, rfl, rfl⟩

/-- C8 counterexample: a response that parses to an object missing both
required fields (`offer_type` and `value`) does NOT fail — the Generate
handler reports no error and marks the offer as created, so the claimed
required-field failure is false. -/
theorem claim_C8_counterexample :
    (generateHandler (.ok "\x7b\"foo\": 1\x7d") {}).2 = none ∧
    (generateHandler (.ok "\x7b\"foo\": 1\x7d") {}).1.offer_created = true :=
  ⟨rfl, rfl⟩

/-- C8 (amended): the extract operation fails with an error report (state
unchanged) exactly when the LLM call raises or the fence-stripped response
is not valid JSON; when the response parses to an object, extraction
succeeds with no required-field check — objects missing `offer_type` or
`value` are accepted as-is. -/
theorem claim_C8_extract_errors (content : String) (s : DraftState) :
    (∀ e, jsonParse (stripCodeFence content) = .error e →
      generateHandler (.ok content) s
        = (s, some ("Error generating offer: " ++ e))) ∧
    (∀ l, jsonParse (stripCodeFence content) = .ok (.obj l) →
      generateHandler (.ok content) s
        = ({ offer_params := some (.obj l), adjusted_params := some (.obj l),
             offer_created := true }, none)) ∧
    (∀ e, generateHandler (.error e) s
      = (s, some ("Error generating offer: " ++ e))) := by
  refine ⟨fun e h => ?_, fun l h => ?_, fun e => rfl⟩
  · simp [generateHandler, h]
  · simp [generateHandler, h, pyCopy]

/-- Witness for C8 (amended): an unparseable response leaves the state
unchanged with an error report. -/
theorem claim_C8_extract_errors_witness :
    generateHandler (.ok "not json") {}
      = ({}, some "Error generating offer: Expecting value") :=
  (claim_C8_extract_errors "not json" {}).1 "Expecting value" rfl

/-- C10: a falsy filtered collection (`None` or the empty list) makes the
view fall back to the full base collection; only a non-empty filtered
collection is displayed in its place. -/
theorem claim_C10_display (pending : Option (List Offer)) (l : List Offer) :
    offersToDisplay (some []) pending = pending ∧
    offersToDisplay none pending = pending ∧
    (l ≠ [] → offersToDisplay (some l) pending = some l) := by
  refine ⟨rfl, rfl, fun h => ?_⟩
  cases l with
  | nil => exact absurd rfl h
  | cons a t => rfl

/-- Witness for C10 at concrete inputs: an empty filtered list falls back
to the base collection; a non-empty one is shown instead. -/
theorem claim_C10_display_witness :
    offersToDisplay (some []) (some [{ id := Json.num 1 }])
      = some [{ id := Json.num 1 }] ∧
    offersToDisplay (some [{ id := Json.num 2 }]) (some [{ id := Json.num 1 }])
      = some [{ id := Json.num 2 }] :=
  ⟨(claim_C10_display (some [{ id := Json.num 1 }]) []).1,
   (claim_C10_display (some [{ id := Json.num 1 }]) [{ id := Json.num 2 }]).2.2
     (by simp)⟩

end OfferApp
